import Mathlib

/-!
Verification of `flang/lib/Evaluate/check-expression.cpp`: a shallow
embedding of the four semantic predicates over the typed expression tree
(`IsConstantExpr`, `IsInitialDataTarget`, `CheckSpecificationExpr`,
`IsSimplyContiguous`) together with theorems about their behaviour.

The expression IR, the symbol table and the scope graph are external
collaborators of the translated file; they are modelled here with just the
structure the translated handlers consult (node kinds, symbol attributes
and details, scope parent chains).
-/

namespace CheckExpr

/-- Scope kinds, from `semantics::Scope::Kind`.  Only the distinctions the
translated code consults are modelled (global, module, other). -/
inductive ScopeKind : Type where
  | global
  | module
  | other
deriving DecidableEq, Repr

/-- Modelled from the spec: scopes form a tree rooted at a global scope,
with a parent link and a kind tag; ancestor testing is iterative
comparison for identity.  A scope is its chain of parents up to the
root; the `id` field stands for object identity of distinct scopes. -/
inductive Scope : Type where
  | globalScope
  | child (id : Nat) (kind : ScopeKind) (parent : Scope)
deriving DecidableEq, Repr

/-- `Scope::IsGlobal()`: only the root of the scope tree is global. -/
def Scope.IsGlobal : Scope → Bool
  | .globalScope => true
  | .child _ _ _ => false

/-- `Scope::kind()`. -/
def Scope.kind : Scope → ScopeKind
  | .globalScope => .global
  | .child _ k _ => k

/-- Symbol details, from `semantics::Symbol`: the cases the translated
code distinguishes (`ObjectEntityDetails` with its assumed-shape,
assumed-rank and common-block data, `UseDetails`, `HostAssocDetails`,
anything else). -/
inductive Details : Type where
  | objectEntity (isAssumedShape : Bool) (isAssumedRank : Bool)
      (inCommonBlock : Bool)
  | useDetails
  | hostAssoc
  | otherDetails
deriving DecidableEq, Repr

/-- Modelled from the spec: the symbol accessors consumed from the
semantics engine (attribute tests, dummy classification, owning scope,
name, and the external predicates `IsSaved`, `IsNamedConstant`,
`IsImpliedDoIndex`, `IsPureProcedure` whose verdicts are recorded as
fields). -/
structure SymbolData : Type where
  name : String
  attrContiguous : Bool
  attrOptionalA : Bool
  attrIntentOut : Bool
  attrTarget : Bool
  attrAllocatable : Bool
  attrPointer : Bool
  corank : Nat
  rank : Nat
  isDummy : Bool
  namedConstant : Bool
  impliedDoIndex : Bool
  saved : Bool
  pureProc : Bool
  details : Details
  owner : Scope
deriving DecidableEq, Repr

/-- Modelled from the spec: a symbol together with the data of its
ultimate (alias-resolved) symbol; `Symbol::GetUltimate()` is resolved
by the external semantics engine, so its result is carried as a field
(`ultimate = self` for an unaliased symbol). -/
structure Symbol : Type where
  self : SymbolData
  ultimate : SymbolData
deriving DecidableEq, Repr

/-- Modelled from the spec: `semantics::IsNamedConstant`. -/
def IsNamedConstant (s : SymbolData) : Bool := s.namedConstant

/-- Modelled from the spec: `IsImpliedDoIndex`. -/
def IsImpliedDoIndex (s : SymbolData) : Bool := s.impliedDoIndex

/-- Modelled from the spec: `semantics::IsAllocatable`. -/
def IsAllocatable (s : SymbolData) : Bool := s.attrAllocatable

/-- Modelled from the spec: `semantics::IsPointer`. -/
def IsPointer (s : SymbolData) : Bool := s.attrPointer

/-- Modelled from the spec: `semantics::IsSaved`. -/
def IsSaved (s : SymbolData) : Bool := s.saved

/-- Modelled from the spec: `semantics::IsPureProcedure`. -/
def IsPureProcedure (s : SymbolData) : Bool := s.pureProc

/-- Type categories of the IR (`TypeCategory`); the translated code only
cares whether a division node is of `Integer` category. -/
inductive TypeCat : Type where
  | integer
  | real
  | complexCat
  | character
  | logical
  | derived
deriving DecidableEq, Repr

/-- A procedure designator inside a `ProcedureRef`: either resolved to a
user symbol (`proc().GetSymbol()` is non-null) or a specific intrinsic
(`proc().GetSpecificIntrinsic()`). -/
inductive Proc : Type where
  | userSymbol (s : Symbol)
  | specificIntrinsic (name : String)
deriving DecidableEq, Repr

mutual
/-- The expression-node variant, shallowly embedding the node kinds the
translated handlers distinguish.  `intLiteral` is a scalar
`Constant<Type<Integer,KIND>>`; `constant` is any other typed constant
(its category, rank and numeric value are carried but the translated
code never folds non-integer constants). -/
inductive Expr : Type where
  | intLiteral (value : Int)
  | constant (cat : TypeCat) (rank : Nat) (value : Int)
  | bozLiteral
  | nullPointer
  | symbol (s : Symbol)
  | divide (cat : TypeCat) (left : Expr) (right : Expr)
  | binaryOp (left : Expr) (right : Expr)
  | parentheses (operand : Expr)
  | relational (left : Expr) (right : Expr)
  | functionRef (proc : Proc) (args : List Expr)
  | arrayRef (base : Symbol) (subscripts : List Subscript)
  | coarrayRef (subscripts : List Subscript)
  | substring (parent : Expr) (lower : Expr) (upper : Expr)
  | typeParamInquiry (isKindParam : Bool)
  | descriptorInquiry (base : Symbol)

/-- A `Subscript`: either a `Triplet` (optional lower and upper bounds,
a stride expression) or a single subscript expression with its rank. -/
inductive Subscript : Type where
  | triplet (lower : Option Expr) (upper : Option Expr) (stride : Expr)
  | value (rank : Nat) (e : Expr)
end

/-- Modelled from the spec: `GetScalarConstantValue<T>` on an integer
expression succeeds exactly when the expression already is a scalar
integer constant, yielding its value. -/
def GetScalarConstantValue : Expr → Option Int
  | .intLiteral v => some v
  | _ => none

/-- `IsConstantExprHelper::operator()(const semantics::Symbol &)`. -/
def IsConstantExprSymbol (s : Symbol) : Bool :=
  IsNamedConstant s.self || IsImpliedDoIndex s.self

mutual
/-- `IsConstantExpr` (section 10.1.12), the `AllTraverse` of
`IsConstantExprHelper`: default result `true`, children combined by
conjunction, with the handlers of the translated class.  The `divide`
arm for `Integer` category is the
`operator()(const Divide<Type<TypeCategory::Integer, KIND>> &)`
override; for any other category a division is an `Operation` handled
by the default structural conjunction. -/
def IsConstantExpr : Expr → Bool
  | .intLiteral _ => true
  | .constant _ _ _ => true
  | .bozLiteral => true
  | .nullPointer => true
  | .symbol s => IsConstantExprSymbol s
  | .divide cat l r =>
      if cat = .integer then
        match GetScalarConstantValue r with
        | some divisor => !(divisor == 0)
        | none => false
      else IsConstantExpr l && IsConstantExpr r
  | .binaryOp l r => IsConstantExpr l && IsConstantExpr r
  | .parentheses e => IsConstantExpr e
  | .relational l r => IsConstantExpr l && IsConstantExpr r
  | .functionRef p _ =>
      match p with
      | .specificIntrinsic n => n == "kind"
      | .userSymbol _ => false
  | .arrayRef base subs => IsConstantExprSymbol base && constSubscripts subs
  | .coarrayRef _ => false
  | .substring p lo hi =>
      IsConstantExpr p && IsConstantExpr lo && IsConstantExpr hi
  | .typeParamInquiry isKindParam => isKindParam
  | .descriptorInquiry base => IsConstantExprSymbol base

/-- Structural conjunction over a subscript list (default traversal). -/
def constSubscripts : List Subscript → Bool
  | [] => true
  | s :: rest => constSubscript s && constSubscripts rest

/-- Default traversal of one subscript: a triplet visits its bound and
stride expressions, a value subscript visits its expression. -/
def constSubscript : Subscript → Bool
  | .triplet lo hi st => constOptExpr lo && constOptExpr hi && IsConstantExpr st
  | .value _ e => IsConstantExpr e

/-- Default traversal of an optional expression (absent gives the
identity `true` of the conjunction). -/
def constOptExpr : Option Expr → Bool
  | none => true
  | some e => IsConstantExpr e
end

/-- A single-quote character, used to reproduce the quoting of symbol
names inside the diagnostic texts of the translated file. -/
def sq : String := (Char.ofNat 39).toString

/-- The message of the ALLOCATABLE branch of
`IsInitialDataTargetHelper::operator()(const semantics::Symbol &)`. -/
def msgAllocatable (n : String) : String :=
  "An initial data target may not be a reference to an ALLOCATABLE " ++
    sq ++ n ++ sq

/-- The message of the coarray branch. -/
def msgCoarray (n : String) : String :=
  "An initial data target may not be a reference to a coarray " ++
    sq ++ n ++ sq

/-- The message of the missing-TARGET branch. -/
def msgLacksTarget (n : String) : String :=
  "An initial data target may not be a reference to an object " ++ sq ++ n ++
    sq ++ " that lacks the TARGET attribute"

/-- The message of the missing-SAVE branch. -/
def msgLacksSave (n : String) : String :=
  "An initial data target may not be a reference to an object " ++ sq ++ n ++
    sq ++ " that lacks the SAVE attribute"

/-- `IsInitialDataTargetHelper::operator()(const semantics::Symbol &)`:
the verdict is always `true`; as a side effect, the chain of
`if / else if` tests on the ultimate symbol emits at most one message
through the sink (ALLOCATABLE, then corank, then TARGET, then SAVE). -/
def initialDataTargetSymbol (s : Symbol) : Bool × List String :=
  let u := s.ultimate
  if IsAllocatable u then (true, [msgAllocatable u.name])
  else if 0 < u.corank then (true, [msgCoarray u.name])
  else if !u.attrTarget then (true, [msgLacksTarget u.name])
  else if !(IsSaved u) then (true, [msgLacksSave u.name])
  else (true, [])

mutual
/-- `IsInitialDataTarget` (C765), the `AllTraverse` of
`IsInitialDataTargetHelper`: verdict combined by short-circuit
conjunction, messages emitted in traversal order through the sink
(returned here as the second component).  Arms without an override in
the translated class (`ArrayRef`) use the default structural traversal
of base and subscripts. -/
def initialDataTarget : Expr → Bool × List String
  | .intLiteral _ => (false, [])
  | .constant _ _ _ => (false, [])
  | .bozLiteral => (false, [])
  | .nullPointer => (true, [])
  | .symbol s => initialDataTargetSymbol s
  | .divide _ _ _ => (false, [])
  | .binaryOp _ _ => (false, [])
  | .parentheses e => initialDataTarget e
  | .relational _ _ => (false, [])
  | .functionRef _ _ => (false, [])
  | .arrayRef base subs =>
      let b := initialDataTargetSymbol base
      if b.1 then (idtSubscripts subs, b.2) else b
  | .coarrayRef _ => (false, [])
  | .substring p lo hi =>
      if IsConstantExpr lo && IsConstantExpr hi then initialDataTarget p
      else (false, [])
  | .typeParamInquiry _ => (false, [])
  | .descriptorInquiry _ => (false, [])

/-- Conjunction over the subscripts of an `ArrayRef` (the `Subscript`
handler emits no messages, so only the verdict is tracked). -/
def idtSubscripts : List Subscript → Bool
  | [] => true
  | s :: rest => idtSubscript s && idtSubscripts rest

/-- `IsInitialDataTargetHelper::operator()(const Subscript &)`: a
triplet requires constant bounds and stride; any other subscript must
be scalar and a constant expression. -/
def idtSubscript : Subscript → Bool
  | .triplet lo hi st => constOptExpr lo && constOptExpr hi && IsConstantExpr st
  | .value rank e => rank == 0 && IsConstantExpr e
end

/-- `IsInitialDataTarget(x, messages)`: entry point. -/
def IsInitialDataTarget (x : Expr) : Bool × List String :=
  initialDataTarget x

/-- `"dummy procedure argument"` as produced for a dummy that is not a
data object. -/
def msgDummyProc : String := "dummy procedure argument"

/-- The OPTIONAL-dummy diagnostic of the specification checker. -/
def msgOptionalDummy (n : String) : String :=
  "reference to OPTIONAL dummy argument " ++ sq ++ n ++ sq

/-- The INTENT(OUT)-dummy diagnostic of the specification checker. -/
def msgIntentOutDummy (n : String) : String :=
  "reference to INTENT(OUT) dummy argument " ++ sq ++ n ++ sq

/-- The local-entity diagnostic of the specification checker. -/
def msgLocalEntity (n : String) : String :=
  "reference to local entity " ++ sq ++ n ++ sq

/-- The impure-function diagnostic of the specification checker. -/
def msgImpureFunction (n : String) : String :=
  "reference to impure function " ++ sq ++ n ++ sq

/-- The ancestor walk of
`CheckSpecificationExprHelper::operator()(const semantics::Symbol &)`:
starting at the checking scope, while the current scope is not global,
step to its parent and test it for identity with the owner of the
symbol.  (The checking scope itself is never compared; the global
scope is compared when reached as a parent.) -/
def ancestorWalkFinds (checking : Scope) (owner : Scope) : Bool :=
  match checking with
  | .globalScope => false
  | .child _ _ p => if p = owner then true else ancestorWalkFinds p owner

/-- Whether a symbol's details are `ObjectEntityDetails` recording
common-block membership (`object->commonBlock()`). -/
def detailsInCommonBlock : Details → Bool
  | .objectEntity _ _ cb => cb
  | _ => false

/-- `CheckSpecificationExprHelper::operator()(const semantics::Symbol &)`. -/
def specificationSymbol (checking : Scope) (sym : Symbol) : Option String :=
  let s := sym.self
  if IsNamedConstant s then none
  else if s.isDummy then
    if s.attrOptionalA then some (msgOptionalDummy s.name)
    else if s.attrIntentOut then some (msgIntentOutDummy s.name)
    else match s.details with
      | .objectEntity _ _ _ => none
      | _ => some msgDummyProc
  else if s.details = .useDetails || s.details = .hostAssoc ||
      s.owner.kind = .module then none
  else if detailsInCommonBlock s.details then none
  else if ancestorWalkFinds checking s.owner then none
  else some (msgLocalEntity s.name)

/-- The `AnyTraverse` combinator: identity is "no result"; the first
non-identity child result wins. -/
def firstSome (a : Option String) (b : Option String) : Option String :=
  match a with
  | some m => some m
  | none => b

mutual
/-- `CheckSpecificationExprHelper` (10.1.11(2), C1010), an `AnyTraverse`
returning an optional diagnostic: `none` means legal, and the first
diagnostic produced by any subexpression wins.  Arms without an
override use the default structural traversal. -/
def specificationExpr (checking : Scope) : Expr → Option String
  | .intLiteral _ => none
  | .constant _ _ _ => none
  | .bozLiteral => none
  | .nullPointer => none
  | .symbol sym => specificationSymbol checking sym
  | .divide _ l r =>
      firstSome (specificationExpr checking l) (specificationExpr checking r)
  | .binaryOp l r =>
      firstSome (specificationExpr checking l) (specificationExpr checking r)
  | .parentheses e => specificationExpr checking e
  | .relational l r =>
      firstSome (specificationExpr checking l) (specificationExpr checking r)
  | .functionRef p args =>
      match p with
      | .userSymbol s =>
          if !(IsPureProcedure s.self) then some (msgImpureFunction s.self.name)
          else specificationArgs checking args
      | .specificIntrinsic n =>
          if n == "present" then none
          else if IsConstantExpr (.functionRef (.specificIntrinsic n) args) then
            none
          else specificationArgs checking args
  | .arrayRef base subs =>
      firstSome (specificationSymbol checking base)
        (specificationSubscripts checking subs)
  | .coarrayRef _ => some "coindexed reference"
  | .substring p lo hi =>
      firstSome (specificationExpr checking p)
        (firstSome (specificationExpr checking lo)
          (specificationExpr checking hi))
  | .typeParamInquiry _ => none
  | .descriptorInquiry _ => none

/-- `(*this)(x.arguments())`: first diagnostic from any argument wins. -/
def specificationArgs (checking : Scope) : List Expr → Option String
  | [] => none
  | a :: rest =>
      match specificationExpr checking a with
      | some m => some m
      | none => specificationArgs checking rest

/-- Default traversal over a subscript list. -/
def specificationSubscripts (checking : Scope) : List Subscript → Option String
  | [] => none
  | s :: rest =>
      firstSome (specificationSubscript checking s)
        (specificationSubscripts checking rest)

/-- Default traversal of one subscript. -/
def specificationSubscript (checking : Scope) : Subscript → Option String
  | .triplet lo hi st =>
      firstSome (specificationOptExpr checking lo)
        (firstSome (specificationOptExpr checking hi)
          (specificationExpr checking st))
  | .value _ e => specificationExpr checking e

/-- Default traversal of an optional expression. -/
def specificationOptExpr (checking : Scope) : Option Expr → Option String
  | none => none
  | some e => specificationExpr checking e
end

/-- `CheckSpecificationExpr(x, messages, scope)`: says one formatted
message when the helper returns a diagnostic, nothing otherwise. -/
def CheckSpecificationExpr (checking : Scope) (x : Expr) : List String :=
  match specificationExpr checking x with
  | some why => ["Invalid specification expression: " ++ why]
  | none => []

/-- The characterized result of a procedure
(`characteristics::FunctionResult`): the three attribute tests the
contiguity checker performs on it. -/
structure FunctionResultChars : Type where
  isProcedurePtr : Bool
  isPointerRes : Bool
  isContiguousRes : Bool
deriving DecidableEq, Repr

/-- `characteristics::Procedure` as consulted by the contiguity
checker: just the optional function result. -/
structure ProcChars : Type where
  functionResult : Option FunctionResultChars
deriving DecidableEq, Repr

/-- Modelled from the spec: the procedure-characterization query
(`characteristics::Procedure::Characterize` against the intrinsic
table), an external collaborator; `none` means the characteristics
cannot be determined. -/
def CharacterizeTable : Type := Proc → Option ProcChars

/-- Modelled from the spec: `Triplet::IsStrideOne()` — the stride
expression folds to the integer one. -/
def IsStrideOne (stride : Expr) : Bool :=
  match stride with
  | .intLiteral v => v == 1
  | _ => false

/-- The loop body of `IsSimplyContiguousHelper::CheckSubscripts`,
processing the subscript list from the last dimension to the first
(the argument list is already reversed) with the `anyTriplet` flag and
the running rank count. -/
def checkSubscriptsLoop : List Subscript → Bool → Nat → Option Nat
  | [], _, rank => some rank
  | .triplet lo hi st :: rest, anyTriplet, rank =>
      if !(IsStrideOne st) then none
      else if anyTriplet && (lo.isSome || hi.isSome) then
        -- all triplets before the last one must be just ":"
        none
      else checkSubscriptsLoop rest true (rank + 1)
  | .value r _ :: rest, anyTriplet, rank =>
      if anyTriplet || 0 < r then none
      else checkSubscriptsLoop rest anyTriplet rank

/-- `IsSimplyContiguousHelper::CheckSubscripts`: if the subscripts can
possibly be on a simply contiguous array reference, return the rank. -/
def CheckSubscripts (subs : List Subscript) : Option Nat :=
  checkSubscriptsLoop subs.reverse false 0

/-- `Subscript::Rank()`: a triplet has rank one, a value subscript the
rank of its expression. -/
def subscriptRank : Subscript → Nat
  | .triplet _ _ _ => 1
  | .value r _ => r

/-- Modelled from the spec: every node exposes a rank; the rank of an
`ArrayRef` is the sum of the ranks of its subscripts. -/
def arrayRefRank (subs : List Subscript) : Nat :=
  (subs.map subscriptRank).sum

/-- `IsSimplyContiguousHelper::operator()(const semantics::Symbol &)`:
a definite tri-state verdict for every symbol (never disengaged). -/
def simplyContiguousSymbol (s : Symbol) : Option Bool :=
  if s.self.attrContiguous || s.self.rank == 0 then some true
  else if IsPointer s.self then some false
  else
    match s.self.details with
    | .objectEntity isAssumedShape isAssumedRank _ =>
        -- ALLOCATABLEs are deferred shape, not assumed, hence contiguous.
        some (!isAssumedShape && !isAssumedRank)
    | _ => some false

/-- The `AnyTraverse` combinator over the tri-state: identity is the
disengaged optional; first engaged child result wins. -/
def firstEngaged (a : Option Bool) (b : Option Bool) : Option Bool :=
  match a with
  | some v => some v
  | none => b

/-- `IsSimplyContiguousHelper` (9.5.4) over an expression, an
`AnyTraverse` with tri-state result.  The `arrayRef` arm translates
`operator()(const ArrayRef &)`: its first guard
`if (!(*this)(symbol)) return false;` tests the engagement of the
`std::optional<bool>` returned for the base symbol and not the boolean
inside it, so it is rendered as an `isSome` test. -/
def simplyContiguous (table : CharacterizeTable) : Expr → Option Bool
  | .intLiteral _ => none
  | .constant _ _ _ => none
  | .bozLiteral => none
  | .nullPointer => none
  | .symbol s => simplyContiguousSymbol s
  | .divide _ l r =>
      firstEngaged (simplyContiguous table l) (simplyContiguous table r)
  | .binaryOp l r =>
      firstEngaged (simplyContiguous table l) (simplyContiguous table r)
  | .parentheses e => simplyContiguous table e
  | .relational l r =>
      firstEngaged (simplyContiguous table l) (simplyContiguous table r)
  | .functionRef p _ =>
      match table p with
      | some chars =>
          match chars.functionResult with
          | some result =>
              some (!result.isProcedurePtr && result.isPointerRes &&
                result.isContiguousRes)
          | none => some false
      | none => some false
  | .arrayRef base subs =>
      if !(simplyContiguousSymbol base).isSome then some false
      else
        match CheckSubscripts subs with
        | some rank =>
            -- a(:)%b(1,1) is not contiguous; a(1)%b(:,:) is
            some (0 < rank || arrayRefRank subs == 0)
        | none => some false
  | .coarrayRef subs => some (CheckSubscripts subs).isSome
  | .substring _ _ _ => some false
  | .typeParamInquiry _ => none
  | .descriptorInquiry base => simplyContiguousSymbol base

/-- Modelled from the spec: `IsVariable` — designator-shaped
expressions are variables, computed values are not. -/
def IsVariable : Expr → Bool
  | .symbol _ => true
  | .arrayRef _ _ => true
  | .coarrayRef _ => true
  | .substring _ _ _ => true
  | _ => false

/-- `IsSimplyContiguous(x, table)`: a non-variable is trivially
contiguous; for a variable the tri-state helper verdict counts, with
disengaged resolving to `false`. -/
def IsSimplyContiguous (table : CharacterizeTable) (x : Expr) : Bool :=
  if IsVariable x then
    match simplyContiguous table x with
    | some known => known
    | none => false
  else true

/-! Claim-side definitions: renderings of the spec text, to be compared
with the translated code above. -/

/-- The strict ancestors of a scope, nearest first, ending with the
global scope: the scopes met "while ascending from the checking scope
through parent links to the global scope". -/
def strictAncestors : Scope → List Scope
  | .globalScope => []
  | .child _ _ p => p :: strictAncestors p

/-- Spec-side rendering of the symbol rule of the specification
checker (claim C5): legal for named constants; dummy arguments illegal
when OPTIONAL or INTENT(OUT), legal when data objects, otherwise a
dummy procedure argument; legal when use-associated, host-associated
or owned by a module scope; legal for data objects in a common block;
otherwise legal exactly when the owning scope is a strict ancestor of
the checking scope. -/
def specificationSymbolSpec (checking : Scope) (sym : Symbol) : Option String :=
  let s := sym.self
  if IsNamedConstant s then none
  else if s.isDummy then
    if s.attrOptionalA then some (msgOptionalDummy s.name)
    else if s.attrIntentOut then some (msgIntentOutDummy s.name)
    else match s.details with
      | .objectEntity _ _ _ => none
      | _ => some msgDummyProc
  else if s.details = .useDetails || s.details = .hostAssoc ||
      s.owner.kind = .module then none
  else if detailsInCommonBlock s.details then none
  else if s.owner ∈ strictAncestors checking then none
  else some (msgLocalEntity s.name)

/-- Whether a subscript is a triplet. -/
def isTripletSubscript : Subscript → Bool
  | .triplet _ _ _ => true
  | .value _ _ => false

/-- The number of triplets in a subscript list. -/
def tripletCount (l : List Subscript) : Nat := l.countP isTripletSubscript

/-- Spec-side rendering of the validity scan of the subscript-shape
analysis (claim C4), over the list already reversed into
last-to-first order: a triplet must have unit stride and, once a
triplet has been seen, must be bound-free; a non-triplet subscript is
allowed only before any triplet has been seen and only when scalar. -/
def subscriptsOkFromLast : List Subscript → Bool → Bool
  | [], _ => true
  | .triplet lo hi st :: rest, seenTriplet =>
      IsStrideOne st && !(seenTriplet && (lo.isSome || hi.isSome)) &&
        subscriptsOkFromLast rest true
  | .value r _ :: rest, seenTriplet =>
      !seenTriplet && r == 0 && subscriptsOkFromLast rest seenTriplet

/-- Spec-side rendering of the subscript-shape analysis (claim C4):
when the last-to-first scan completes without invalidation the result
is the number of triplets, otherwise no rank. -/
def checkSubscriptsSpec (subs : List Subscript) : Option Nat :=
  if subscriptsOkFromLast subs.reverse false then some (tripletCount subs)
  else none

/-! Concrete sample inputs used by the counterexamples and witnesses.
`SymbolData` fields, in order: name, CONTIGUOUS, OPTIONAL, INTENT(OUT),
TARGET, ALLOCATABLE, POINTER, corank, rank, dummy, named constant,
implied-DO index, saved, pure, details, owner. -/

/-- A plain local integer variable named n (not a named constant). -/
def sampleLocalData : SymbolData :=
  ⟨"n", false, false, false, false, false, false, 0, 0,
   false, false, false, false, false, .objectEntity false false false,
   .globalScope⟩

/-- The symbol of the variable n. -/
def sampleLocalSym : Symbol := ⟨sampleLocalData, sampleLocalData⟩

/-- A rank-1 POINTER array named p, not CONTIGUOUS. -/
def samplePointerData : SymbolData :=
  ⟨"p", false, false, false, false, false, true, 0, 1,
   false, false, false, false, false, .objectEntity false false false,
   .globalScope⟩

/-- The symbol of the pointer p. -/
def samplePointerSym : Symbol := ⟨samplePointerData, samplePointerData⟩

/-- A rank-3 explicit-shape array named a. -/
def sampleRank3Data : SymbolData :=
  ⟨"a", false, false, false, false, false, false, 0, 3,
   false, false, false, false, false, .objectEntity false false false,
   .globalScope⟩

/-- The symbol of the array a. -/
def sampleRank3Sym : Symbol := ⟨sampleRank3Data, sampleRank3Data⟩

/-- The subscript a bare colon denotes: a bound-free unit-stride triplet. -/
def sampleColon : Subscript := .triplet none none (.intLiteral 1)

/-- The scalar constant subscript 1. -/
def sampleOne : Subscript := .value 0 (.intLiteral 1)

/-- A symbol named b violating four preconditions of an initial data
target at once: ALLOCATABLE, corank 1, no TARGET, no SAVE. -/
def sampleMultiViolData : SymbolData :=
  ⟨"b", false, false, false, false, true, false, 1, 0,
   false, false, false, false, false, .objectEntity false false false,
   .globalScope⟩

/-- The symbol of b. -/
def sampleMultiViolSym : Symbol := ⟨sampleMultiViolData, sampleMultiViolData⟩

/-- A coarray named c (corank 1), not allocatable. -/
def sampleCoarrayData : SymbolData :=
  ⟨"c", false, false, false, false, false, false, 1, 0,
   false, false, false, false, false, .objectEntity false false false,
   .globalScope⟩

/-- The symbol of c. -/
def sampleCoarraySym : Symbol := ⟨sampleCoarrayData, sampleCoarrayData⟩

/-- A variable named t lacking the TARGET attribute. -/
def sampleNoTargetData : SymbolData :=
  ⟨"t", false, false, false, false, false, false, 0, 0,
   false, false, false, false, false, .objectEntity false false false,
   .globalScope⟩

/-- The symbol of t. -/
def sampleNoTargetSym : Symbol := ⟨sampleNoTargetData, sampleNoTargetData⟩

/-- A TARGET variable named u lacking SAVE. -/
def sampleNoSaveData : SymbolData :=
  ⟨"u", false, false, false, true, false, false, 0, 0,
   false, false, false, false, false, .objectEntity false false false,
   .globalScope⟩

/-- The symbol of u. -/
def sampleNoSaveSym : Symbol := ⟨sampleNoSaveData, sampleNoSaveData⟩

/-- A SAVE and TARGET scalar variable named v. -/
def sampleSavedTargetData : SymbolData :=
  ⟨"v", false, false, false, true, false, false, 0, 0,
   false, false, false, true, false, .objectEntity false false false,
   .globalScope⟩

/-- The symbol of v. -/
def sampleSavedTargetSym : Symbol :=
  ⟨sampleSavedTargetData, sampleSavedTargetData⟩

/-- An ALLOCATABLE, TARGET, SAVE variable named w. -/
def sampleAllocTSData : SymbolData :=
  ⟨"w", false, false, false, true, true, false, 0, 0,
   false, false, false, true, false, .objectEntity false false false,
   .globalScope⟩

/-- The symbol of w. -/
def sampleAllocTSSym : Symbol := ⟨sampleAllocTSData, sampleAllocTSData⟩

/-- A dummy data object named d carrying both OPTIONAL and INTENT(OUT). -/
def sampleOptionalDummyData : SymbolData :=
  ⟨"d", false, true, true, false, false, false, 0, 0,
   true, false, false, false, false, .objectEntity false false false,
   .globalScope⟩

/-- The symbol of d. -/
def sampleOptionalDummySym : Symbol :=
  ⟨sampleOptionalDummyData, sampleOptionalDummyData⟩

/-- An impure procedure named f. -/
def sampleImpureProcData : SymbolData :=
  ⟨"f", false, false, false, false, false, false, 0, 0,
   false, false, false, false, false, .otherDetails, .globalScope⟩

/-- The symbol of f. -/
def sampleImpureProcSym : Symbol := ⟨sampleImpureProcData, sampleImpureProcData⟩

/-- A pure procedure named g. -/
def samplePureProcData : SymbolData :=
  ⟨"g", false, false, false, false, false, false, 0, 0,
   false, false, false, false, true, .otherDetails, .globalScope⟩

/-- The symbol of g. -/
def samplePureProcSym : Symbol := ⟨samplePureProcData, samplePureProcData⟩

/-- A rank-2 array named q with the CONTIGUOUS attribute. -/
def sampleContigData : SymbolData :=
  ⟨"q", true, false, false, false, false, false, 0, 2,
   false, false, false, false, false, .objectEntity false false false,
   .globalScope⟩

/-- The symbol of q. -/
def sampleContigSym : Symbol := ⟨sampleContigData, sampleContigData⟩

/-- A rank-2 assumed-shape array named r. -/
def sampleAssumedShapeData : SymbolData :=
  ⟨"r", false, false, false, false, false, false, 0, 2,
   false, false, false, false, false, .objectEntity true false false,
   .globalScope⟩

/-- The symbol of r. -/
def sampleAssumedShapeSym : Symbol :=
  ⟨sampleAssumedShapeData, sampleAssumedShapeData⟩

/-- A rank-2 entity named k whose details are not those of a data
object. -/
def sampleOtherDetailsData : SymbolData :=
  ⟨"k", false, false, false, false, false, false, 0, 2,
   false, false, false, false, false, .otherDetails, .globalScope⟩

/-- The symbol of k. -/
def sampleOtherDetailsSym : Symbol :=
  ⟨sampleOtherDetailsData, sampleOtherDetailsData⟩

/-- A characterization table that can determine no procedure. -/
def tableNone : CharacterizeTable := fun _ => none

/-! Helper lemmas shared by the claim theorems. -/

/-- The ancestor walk of the translated code finds the owner exactly
when the owner is a strict ancestor of the checking scope. -/
theorem ancestorWalkFinds_eq_mem (checking owner : Scope) :
    ancestorWalkFinds checking owner = (owner ∈ strictAncestors checking) := by
  induction checking with
  | globalScope => simp [ancestorWalkFinds, strictAncestors]
  | child i k p ih =>
      by_cases h : p = owner
      · simp [ancestorWalkFinds, strictAncestors, h]
      · have h' : owner ≠ p := fun hh => h hh.symm
        simp [ancestorWalkFinds, strictAncestors, h, h', ih]

/-- The subscript loop of the translated code equals the spec-side
scan paired with the running count of triplets. -/
theorem checkSubscriptsLoop_eq (l : List Subscript) :
    ∀ (anyTriplet : Bool) (rank : Nat),
      checkSubscriptsLoop l anyTriplet rank =
        if subscriptsOkFromLast l anyTriplet then
          some (rank + l.countP isTripletSubscript)
        else none := by
  induction l with
  | nil => intro anyTriplet rank; simp [checkSubscriptsLoop, subscriptsOkFromLast]
  | cons s rest ih =>
      intro anyTriplet rank
      cases s with
      | triplet lo hi st =>
          by_cases hst : IsStrideOne st = true
          · by_cases hb : (anyTriplet && (lo.isSome || hi.isSome)) = true
            · simp [checkSubscriptsLoop, subscriptsOkFromLast, hst, hb,
                isTripletSubscript]
            · rw [Bool.not_eq_true] at hb
              simp only [checkSubscriptsLoop, subscriptsOkFromLast, hst, hb,
                Bool.not_false, Bool.and_true, Bool.true_and,
                Bool.false_eq_true, not_false_eq_true, if_neg]
              rw [ih true (rank + 1)]
              have hc : rank + 1 + List.countP isTripletSubscript rest =
                  rank + List.countP isTripletSubscript
                    (Subscript.triplet lo hi st :: rest) := by
                simp [List.countP_cons, isTripletSubscript]
                try omega
              rw [hc]
              simp
          · simp [checkSubscriptsLoop, subscriptsOkFromLast, hst]
      | value r e =>
          cases hat : anyTriplet with
          | true => simp [checkSubscriptsLoop, subscriptsOkFromLast]
          | false =>
              cases r with
              | zero =>
                  simp only [checkSubscriptsLoop]
                  rw [if_neg (by simp)]
                  rw [ih false rank]
                  simp [subscriptsOkFromLast, List.countP_cons,
                    isTripletSubscript]
              | succ k =>
                  simp [checkSubscriptsLoop, subscriptsOkFromLast]

/-- The translated subscript-shape analysis coincides with its
spec-side rendering. -/
theorem CheckSubscripts_eq_spec (subs : List Subscript) :
    CheckSubscripts subs = checkSubscriptsSpec subs := by
  unfold CheckSubscripts checkSubscriptsSpec
  rw [checkSubscriptsLoop_eq]
  simp [tripletCount, List.countP_reverse]

/-- The specification checker deems an argument list legal exactly
when it deems every argument legal. -/
theorem specificationArgs_eq_none (checking : Scope) (args : List Expr) :
    specificationArgs checking args = none ↔
      ∀ a ∈ args, specificationExpr checking a = none := by
  induction args with
  | nil => simp [specificationArgs]
  | cons a rest ih =>
      simp only [specificationArgs]
      cases h : specificationExpr checking a with
      | some m => simp [h]
      | none => simp [h, ih]

/-- The symbol handler of the contiguity checker always returns an
engaged (definite) tri-state value. -/
theorem simplyContiguousSymbol_isSome (s : Symbol) :
    (simplyContiguousSymbol s).isSome = true := by
  unfold simplyContiguousSymbol
  split
  · rfl
  · split
    · rfl
    · split <;> rfl

/-! Claim theorems. -/

/-- Claim C1, counterexample: the integer-division handler of
`IsConstantExpr` never examines the dividend, so `n / 2` with `n` a
non-constant symbol is accepted as a constant expression even though
its left operand is not one — refuting the claim that, beyond the
divisor condition, the operands must be constant expressions. -/
theorem C1_counterexample :
    IsConstantExpr
        (.divide .integer (.symbol sampleLocalSym) (.intLiteral 2)) = true ∧
      IsConstantExpr (.symbol sampleLocalSym) = false :=
  ⟨by decide, by decide⟩

/-- Claim C1 as amended: for every integer division node,
`IsConstantExpr` holds exactly when the divisor is foldable to a
scalar constant and that constant is non-zero; the operands are not
separately examined, and an unfoldable divisor makes the expression
non-constant.  In particular `5 / 2` is a constant expression,
`5 / 0` is not, and `5 / n` with `n` a non-constant symbol is not. -/
theorem C1_amended_thm :
    (∀ l r : Expr, IsConstantExpr (.divide .integer l r) =
        (match GetScalarConstantValue r with
         | some divisor => !(divisor == 0)
         | none => false)) ∧
      IsConstantExpr (.divide .integer (.intLiteral 5) (.intLiteral 2))
          = true ∧
      IsConstantExpr (.divide .integer (.intLiteral 5) (.intLiteral 0))
          = false ∧
      IsConstantExpr
          (.divide .integer (.intLiteral 5) (.symbol sampleLocalSym))
        = false := by
  refine ⟨fun l r => ?_, by decide, by decide, by decide⟩
  simp [IsConstantExpr]

/-- Claim C8: the zero-divisor requirement applies only to divisions
of integer type; a division of any other type category is handled by
the default structural conjunction, so it is constant exactly when
both operands are — even when the divisor is a (real) constant whose
value is zero. -/
theorem C8_thm :
    ∀ (cat : TypeCat) (l r : Expr), cat ≠ .integer →
      IsConstantExpr (.divide cat l r) =
        (IsConstantExpr l && IsConstantExpr r) := by
  intro cat l r h
  simp [IsConstantExpr, h]

/-- Claim C8, witness: a real division whose divisor is a real scalar
constant of value zero is still a constant expression. -/
theorem C8_witness :
    TypeCat.real ≠ TypeCat.integer ∧
      IsConstantExpr
          (.divide .real (.constant .real 0 1) (.constant .real 0 0)) =
        (IsConstantExpr (.constant .real 0 1) &&
          IsConstantExpr (.constant .real 0 0)) ∧
      IsConstantExpr
          (.divide .real (.constant .real 0 1) (.constant .real 0 0)) = true :=
  ⟨by decide, C8_thm .real (.constant .real 0 1) (.constant .real 0 0)
    (by decide), by decide⟩

/-- Claim C2, evaluation at the failing input: `p(:)` for a rank-1
POINTER array `p` without the CONTIGUOUS attribute is reported simply
contiguous by the code, although the symbol handler judges `p` itself
not contiguous — the guard `if (!(*this)(symbol)) return false;`
tests only the engagement of the returned `std::optional<bool>`,
which the symbol handler always engages, so the claimed early
rejection never happens. -/
theorem C2_thm :
    IsSimplyContiguous tableNone
        (.arrayRef samplePointerSym [.triplet none none (.intLiteral 1)])
        = true ∧
      simplyContiguousSymbol samplePointerSym = some false ∧
      IsPointer samplePointerSym.self = true ∧
      samplePointerSym.self.attrContiguous = false :=
  ⟨by decide, by decide, by decide, by decide⟩

/-- Claim C4: the subscript-shape analysis coincides with its
spec-side rendering (right-to-left scan; no rank on a non-unit
stride, on a bounded triplet other than the rightmost one, or on a
positive-rank or triplet-following value subscript; otherwise the
number of triplets), and consequently `a(:, :, 1)` on a contiguous
explicit-shape rank-3 array is simply contiguous while `a(1, :, :)`
is not. -/
theorem C4_thm :
    (∀ subs : List Subscript,
        CheckSubscripts subs = checkSubscriptsSpec subs) ∧
      IsSimplyContiguous tableNone
          (.arrayRef sampleRank3Sym [sampleColon, sampleColon, sampleOne])
          = true ∧
      IsSimplyContiguous tableNone
          (.arrayRef sampleRank3Sym [sampleOne, sampleColon, sampleColon])
        = false :=
  ⟨CheckSubscripts_eq_spec, by decide, by decide⟩

/-- Claim C3, counterexample: the symbol b violates the allocatable,
corank, TARGET and SAVE preconditions at once, yet the `else if`
chain of the symbol handler reports only the first violation — a
single ALLOCATABLE diagnostic — refuting the claim that each violated
precondition is independently reported. -/
theorem C3_counterexample :
    IsInitialDataTarget (.symbol sampleMultiViolSym)
        = (true, [msgAllocatable "b"]) ∧
      IsAllocatable sampleMultiViolSym.ultimate = true ∧
      0 < sampleMultiViolSym.ultimate.corank ∧
      sampleMultiViolSym.ultimate.attrTarget = false ∧
      IsSaved sampleMultiViolSym.ultimate = false :=
  ⟨by decide, by decide, by decide, by decide, by decide⟩

/-- Claim C3 as amended: the preconditions on the ultimate symbol are
tested in the order allocatable, corank, TARGET, SAVE, but they are
mutually exclusive (`else if`): only the first violated one is
reported, so at most one diagnostic fires per symbol reference. -/
theorem C3_thm :
    (∀ s : Symbol, ((IsInitialDataTarget (.symbol s)).2).length ≤ 1) ∧
    (∀ s : Symbol, IsAllocatable s.ultimate = true →
      (IsInitialDataTarget (.symbol s)).2 = [msgAllocatable s.ultimate.name]) ∧
    (∀ s : Symbol, IsAllocatable s.ultimate = false → 0 < s.ultimate.corank →
      (IsInitialDataTarget (.symbol s)).2 = [msgCoarray s.ultimate.name]) ∧
    (∀ s : Symbol, IsAllocatable s.ultimate = false → s.ultimate.corank = 0 →
      s.ultimate.attrTarget = false →
      (IsInitialDataTarget (.symbol s)).2
        = [msgLacksTarget s.ultimate.name]) ∧
    (∀ s : Symbol, IsAllocatable s.ultimate = false → s.ultimate.corank = 0 →
      s.ultimate.attrTarget = true → IsSaved s.ultimate = false →
      (IsInitialDataTarget (.symbol s)).2 = [msgLacksSave s.ultimate.name]) ∧
    (∀ s : Symbol, IsAllocatable s.ultimate = false → s.ultimate.corank = 0 →
      s.ultimate.attrTarget = true → IsSaved s.ultimate = true →
      (IsInitialDataTarget (.symbol s)).2 = []) := by
  refine ⟨fun s => ?_, fun s h1 => ?_, fun s h1 h2 => ?_,
    fun s h1 h2 h3 => ?_, fun s h1 h2 h3 h4 => ?_, fun s h1 h2 h3 h4 => ?_⟩
  · simp only [IsInitialDataTarget, initialDataTarget,
      initialDataTargetSymbol]
    split_ifs <;> simp
  · simp [IsInitialDataTarget, initialDataTarget, initialDataTargetSymbol, h1]
  · simp [IsInitialDataTarget, initialDataTarget, initialDataTargetSymbol,
      h1, h2]
  · simp [IsInitialDataTarget, initialDataTarget, initialDataTargetSymbol,
      h1, h2, h3]
  · simp [IsInitialDataTarget, initialDataTarget, initialDataTargetSymbol,
      h1, h2, h3, h4]
  · simp [IsInitialDataTarget, initialDataTarget, initialDataTargetSymbol,
      h1, h2, h3, h4]

/-- Claim C3, witness: one concrete symbol per branch of the amended
characterization. -/
theorem C3_witness :
    (IsInitialDataTarget (.symbol sampleMultiViolSym)).2
        = [msgAllocatable "b"] ∧
      (IsInitialDataTarget (.symbol sampleCoarraySym)).2 = [msgCoarray "c"] ∧
      (IsInitialDataTarget (.symbol sampleNoTargetSym)).2
          = [msgLacksTarget "t"] ∧
      (IsInitialDataTarget (.symbol sampleNoSaveSym)).2
          = [msgLacksSave "u"] ∧
      (IsInitialDataTarget (.symbol sampleSavedTargetSym)).2 = [] :=
  ⟨C3_thm.2.1 sampleMultiViolSym (by decide),
   C3_thm.2.2.1 sampleCoarraySym (by decide) (by decide),
   C3_thm.2.2.2.1 sampleNoTargetSym (by decide) (by decide) (by decide),
   C3_thm.2.2.2.2.1 sampleNoSaveSym (by decide) (by decide) (by decide)
     (by decide),
   C3_thm.2.2.2.2.2 sampleSavedTargetSym (by decide) (by decide) (by decide)
     (by decide)⟩

/-- Claim C7: the verdict of `IsInitialDataTarget` for a direct symbol
reference is always `true` regardless of diagnosed violations; a
SAVE and TARGET scalar yields zero diagnostics, a TARGET variable
lacking SAVE yields exactly the missing-SAVE diagnostic, and an
ALLOCATABLE, TARGET, SAVE variable yields exactly the ALLOCATABLE
diagnostic. -/
theorem C7_thm :
    (∀ s : Symbol, (IsInitialDataTarget (.symbol s)).1 = true) ∧
    (∀ s : Symbol, IsAllocatable s.ultimate = false → s.ultimate.corank = 0 →
      s.ultimate.attrTarget = true → IsSaved s.ultimate = true →
      IsInitialDataTarget (.symbol s) = (true, [])) ∧
    (∀ s : Symbol, IsAllocatable s.ultimate = false → s.ultimate.corank = 0 →
      s.ultimate.attrTarget = true → IsSaved s.ultimate = false →
      IsInitialDataTarget (.symbol s)
        = (true, [msgLacksSave s.ultimate.name])) ∧
    (∀ s : Symbol, IsAllocatable s.ultimate = true →
      s.ultimate.attrTarget = true → IsSaved s.ultimate = true →
      IsInitialDataTarget (.symbol s)
        = (true, [msgAllocatable s.ultimate.name])) := by
  refine ⟨fun s => ?_, fun s h1 h2 h3 h4 => ?_, fun s h1 h2 h3 h4 => ?_,
    fun s h1 h2 h3 => ?_⟩
  · simp only [IsInitialDataTarget, initialDataTarget,
      initialDataTargetSymbol]
    split_ifs <;> rfl
  · simp [IsInitialDataTarget, initialDataTarget, initialDataTargetSymbol,
      h1, h2, h3, h4]
  · simp [IsInitialDataTarget, initialDataTarget, initialDataTargetSymbol,
      h1, h2, h3, h4]
  · simp [IsInitialDataTarget, initialDataTarget, initialDataTargetSymbol,
      h1, h2, h3]

/-- Claim C7, witness: the three scenarios at concrete symbols. -/
theorem C7_witness :
    IsInitialDataTarget (.symbol sampleSavedTargetSym) = (true, []) ∧
      IsInitialDataTarget (.symbol sampleNoSaveSym)
          = (true, [msgLacksSave "u"]) ∧
      IsInitialDataTarget (.symbol sampleAllocTSSym)
        = (true, [msgAllocatable "w"]) :=
  ⟨C7_thm.2.1 sampleSavedTargetSym (by decide) (by decide) (by decide)
     (by decide),
   C7_thm.2.2.1 sampleNoSaveSym (by decide) (by decide) (by decide)
     (by decide),
   C7_thm.2.2.2 sampleAllocTSSym (by decide) (by decide) (by decide)⟩

/-- Claim C5: for a symbol reference the specification-expression
checker behaves exactly as the spec-side rule — legal for named
constants; for dummies, OPTIONAL then INTENT(OUT) diagnostics, legal
data objects, otherwise a dummy procedure argument; legal when
use-associated, host-associated or module-owned; legal for common
block data objects; otherwise legal exactly when the owning scope is
met while ascending from the checking scope to the global scope, else
the local-entity diagnostic. -/
theorem C5_thm :
    ∀ (checking : Scope) (sym : Symbol),
      specificationExpr checking (.symbol sym) =
        specificationSymbolSpec checking sym := by
  intro checking sym
  simp only [specificationExpr]
  unfold specificationSymbol specificationSymbolSpec
  simp only [ancestorWalkFinds_eq_mem]

/-- Claim C6: a function call resolving to an impure user symbol gets
the impure-function diagnostic; a call to the specific intrinsic
`present` is legal with unchecked arguments; an intrinsic call that
is already a constant expression is legal with unchecked arguments;
and a call to a pure user function is checked through its arguments,
being legal exactly when all of them are. -/
theorem C6_thm :
    (∀ (checking : Scope) (s : Symbol) (args : List Expr),
      IsPureProcedure s.self = false →
      specificationExpr checking (.functionRef (.userSymbol s) args) =
        some (msgImpureFunction s.self.name)) ∧
    (∀ (checking : Scope) (args : List Expr),
      specificationExpr checking
        (.functionRef (.specificIntrinsic "present") args) = none) ∧
    (∀ (checking : Scope) (n : String) (args : List Expr),
      IsConstantExpr (.functionRef (.specificIntrinsic n) args) = true →
      specificationExpr checking (.functionRef (.specificIntrinsic n) args)
        = none) ∧
    (∀ (checking : Scope) (s : Symbol) (args : List Expr),
      IsPureProcedure s.self = true →
      specificationExpr checking (.functionRef (.userSymbol s) args) =
        specificationArgs checking args) ∧
    (∀ (checking : Scope) (s : Symbol) (args : List Expr),
      IsPureProcedure s.self = true →
      (specificationExpr checking (.functionRef (.userSymbol s) args) = none ↔
        ∀ a ∈ args, specificationExpr checking a = none)) := by
  refine ⟨fun checking s args h => ?_, fun checking args => ?_,
    fun checking n args h => ?_, fun checking s args h => ?_,
    fun checking s args h => ?_⟩
  · simp [specificationExpr, h]
  · simp [specificationExpr]
  · by_cases hp : (n == "present") = true <;> simp [specificationExpr, hp, h]
  · simp [specificationExpr, h]
  · rw [show specificationExpr checking
        (.functionRef (.userSymbol s) args) =
          specificationArgs checking args from by simp [specificationExpr, h]]
    exact specificationArgs_eq_none checking args

/-- Claim C6, witness: the four behaviours at concrete calls, the
illegal argument being a reference to an OPTIONAL dummy. -/
theorem C6_witness :
    specificationExpr .globalScope
        (.functionRef (.userSymbol sampleImpureProcSym) []) =
      some (msgImpureFunction "f") ∧
    specificationExpr .globalScope
        (.functionRef (.specificIntrinsic "present")
          [.symbol sampleOptionalDummySym]) = none ∧
    specificationExpr .globalScope
        (.functionRef (.specificIntrinsic "kind")
          [.symbol sampleOptionalDummySym]) = none ∧
    specificationExpr .globalScope
        (.functionRef (.userSymbol samplePureProcSym)
          [.symbol sampleOptionalDummySym]) =
      specificationArgs .globalScope [.symbol sampleOptionalDummySym] ∧
    (specificationExpr .globalScope
        (.functionRef (.userSymbol samplePureProcSym)
          [.symbol sampleOptionalDummySym]) = none ↔
      ∀ a ∈ [Expr.symbol sampleOptionalDummySym],
        specificationExpr .globalScope a = none) :=
  ⟨C6_thm.1 .globalScope sampleImpureProcSym [] (by decide),
   C6_thm.2.1 .globalScope [.symbol sampleOptionalDummySym],
   C6_thm.2.2.1 .globalScope "kind" [.symbol sampleOptionalDummySym]
     (by decide),
   C6_thm.2.2.2.1 .globalScope samplePureProcSym
     [.symbol sampleOptionalDummySym] (by decide),
   C6_thm.2.2.2.2 .globalScope samplePureProcSym
     [.symbol sampleOptionalDummySym] (by decide)⟩

/-- Claim C9: the symbol handler of the simple-contiguity checker
never yields the disengaged (unknown) tri-state value — CONTIGUOUS or
rank-0 symbols give a definite `true`; pointers a definite `false`;
data objects a definite verdict equal to being neither assumed-shape
nor assumed-rank; anything else a definite `false`. -/
theorem C9_thm :
    (∀ s : Symbol, (simplyContiguousSymbol s).isSome = true) ∧
    (∀ s : Symbol, s.self.attrContiguous = true ∨ s.self.rank = 0 →
      simplyContiguousSymbol s = some true) ∧
    (∀ s : Symbol, s.self.attrContiguous = false → s.self.rank ≠ 0 →
      IsPointer s.self = true → simplyContiguousSymbol s = some false) ∧
    (∀ (s : Symbol) (ash ark cb : Bool), s.self.attrContiguous = false →
      s.self.rank ≠ 0 → IsPointer s.self = false →
      s.self.details = .objectEntity ash ark cb →
      simplyContiguousSymbol s = some (!ash && !ark)) ∧
    (∀ s : Symbol, s.self.attrContiguous = false → s.self.rank ≠ 0 →
      IsPointer s.self = false →
      (∀ ash ark cb : Bool, s.self.details ≠ .objectEntity ash ark cb) →
      simplyContiguousSymbol s = some false) := by
  refine ⟨simplyContiguousSymbol_isSome, fun s h => ?_,
    fun s h1 h2 h3 => ?_, fun s ash ark cb h1 h2 h3 h4 => ?_,
    fun s h1 h2 h3 h4 => ?_⟩
  · rcases h with h | h <;> simp [simplyContiguousSymbol, h]
  · simp [simplyContiguousSymbol, h1, h2, h3]
  · simp [simplyContiguousSymbol, h1, h2, h3, h4]
  · simp only [simplyContiguousSymbol, h1, h2, h3]
    cases hd : s.self.details with
    | objectEntity ash ark cb => exact absurd hd (h4 ash ark cb)
    | useDetails => simp [h2]
    | hostAssoc => simp [h2]
    | otherDetails => simp [h2]

/-- Claim C9, witness: a definite verdict at each branch — a
CONTIGUOUS array, a non-CONTIGUOUS pointer, an assumed-shape data
object, and an entity with non-data-object details. -/
theorem C9_witness :
    (simplyContiguousSymbol sampleContigSym).isSome = true ∧
      simplyContiguousSymbol sampleContigSym = some true ∧
      simplyContiguousSymbol samplePointerSym = some false ∧
      simplyContiguousSymbol sampleAssumedShapeSym = some (!true && !false) ∧
      simplyContiguousSymbol sampleOtherDetailsSym = some false :=
  ⟨C9_thm.1 sampleContigSym,
   C9_thm.2.1 sampleContigSym (Or.inl (by decide)),
   C9_thm.2.2.1 samplePointerSym (by decide) (by decide) (by decide),
   C9_thm.2.2.2.1 sampleAssumedShapeSym true false false (by decide)
     (by decide) (by decide) (by decide),
   C9_thm.2.2.2.2 sampleOtherDetailsSym (by decide) (by decide) (by decide)
     (by intro ash ark cb; simp [sampleOtherDetailsSym,
       sampleOtherDetailsData])⟩

/-- Claim C10: a dummy argument symbol that is not a named constant
and carries both OPTIONAL and INTENT(OUT) draws the OPTIONAL
diagnostic (OPTIONAL is tested first), and the checker emits exactly
one message for the reference. -/
theorem C10_thm :
    ∀ (checking : Scope) (sym : Symbol),
      IsNamedConstant sym.self = false → sym.self.isDummy = true →
      sym.self.attrOptionalA = true → sym.self.attrIntentOut = true →
      CheckSpecificationExpr checking (.symbol sym) =
        ["Invalid specification expression: "
          ++ msgOptionalDummy sym.self.name] := by
  intro checking sym h1 h2 h3 h4
  simp [CheckSpecificationExpr, specificationExpr, specificationSymbol,
    h1, h2, h3]

/-- Claim C10, witness: the dummy d with both attributes draws exactly
the OPTIONAL diagnostic. -/
theorem C10_witness :
    CheckSpecificationExpr .globalScope (.symbol sampleOptionalDummySym) =
      ["Invalid specification expression: " ++ msgOptionalDummy "d"] :=
  C10_thm .globalScope sampleOptionalDummySym (by decide) (by decide)
    (by decide) (by decide)

end CheckExpr
